import Mathlib

/-!
Shallow embedding of `tensorflow-sys/build.rs`: the build-time native
dependency acquisition orchestrator (strategy selection, remote artifact
discovery, download/install pipeline, and source-build state machine).

Pure computations (URL selection, version parsing/comparison, strategy
choice) are translated directly as Lean functions.  The effectful pipelines
(`install_prebuilt`'s download step and `build_from_src`) are embedded as
functions from an explicit world (which filesystem markers/artifacts exist,
what the external processes report or whether they succeed) to the trace of
externally visible actions performed plus the process outcome.
-/

/-- Constant `FRAMEWORK_LIBRARY = "tensorflow_framework"` from the source. -/
def FRAMEWORK_LIBRARY : String := "tensorflow_framework"

/-- Constant `LIBRARY = "tensorflow"` from the source. -/
def LIBRARY : String := "tensorflow"

/-- Constant `TAG = "v2.2.0"` from the source. -/
def TAG : String := "v2.2.0"

/-- Constant `MIN_BAZEL = "0.5.4"` from the source. -/
def MIN_BAZEL : String := "0.5.4"

/-- The fixed bucket listing base URL in `get_latest_nightly_url`. -/
def baseUrl : String := "https://storage.googleapis.com/libtensorflow-nightly"

/-- Helper for `strSplitChar`: splits a character list at every occurrence of
`c`, accumulating the current piece in reverse. -/
def splitCharAux (c : Char) : List Char → List Char → List (List Char)
  | [], acc => [acc.reverse]
  | x :: xs, acc =>
    if x = c then acc.reverse :: splitCharAux c xs []
    else splitCharAux c xs (x :: acc)

/-- Rust's `str::split` with a single-character pattern (the only patterns
`build.rs` uses: `':'`, `' '`, `'.'`, `'\n'`). -/
def strSplitChar (s : String) (c : Char) : List String :=
  (splitCharAux c s.toList []).map (fun l => ⟨l⟩)

/-- Rust's `str::starts_with` on a string pattern. -/
def strStartsWith (s p : String) : Bool := p.toList.isPrefixOf s.toList

/-- Rust's `str::ends_with` on a string pattern. -/
def strEndsWith (s p : String) : Bool :=
  p.toList.reverse.isPrefixOf s.toList.reverse

/-- Rust's `str::trim`. -/
def strTrim (s : String) : String :=
  ⟨(((s.toList.dropWhile Char.isWhitespace).reverse).dropWhile
      Char.isWhitespace).reverse⟩

/-- Removing the final character of a string (the one-byte slice
`&s[..s.len() - 1]` used for the trailing hyphen in `check_bazel`). -/
def dropLastChar (s : String) : String := ⟨s.toList.dropLast⟩

/-- One entry of the parsed remote bucket listing (`struct BucketObject`). -/
structure BucketObject where
  key : String
  generation : Nat
deriving DecidableEq, Repr

/-- The expected-filename construction at the top of `get_latest_nightly_url`:
`format!("libtensorflow-{}-{}-{}{}", proc_type, os, env::consts::ARCH, ext)`. -/
def expectedFilename (procType os arch ext : String) : String :=
  "libtensorflow-" ++ procType ++ "-" ++ os ++ "-" ++ arch ++ ext

/-- The selection logic of `get_latest_nightly_url`, with the already-parsed
listing contents as input (the network fetch and XML parse produce exactly a
`Vec<BucketObject>`): filter the objects whose key ends with the expected
filename, sort ascending by generation (`sort_by_key`, a stable sort), and
take the last.  The Rust code panics when no object matches
(`objs.last().unwrap_or_else(|| panic!(..))`); that is modelled as `none`. -/
def getLatestNightlyUrl (contents : List BucketObject)
    (procType os arch ext : String) : Option String :=
  let filename := expectedFilename procType os arch ext
  let objs := contents.filter (fun o => strEndsWith o.key filename)
  let sorted := objs.mergeSort (fun a b => a.generation ≤ b.generation)
  sorted.getLast?.map (fun o => baseUrl ++ "/" ++ o.key)

/-- Semantic version triple (the fields of `semver::Version` that
`build.rs` exercises: plain `major.minor.patch` strings). -/
structure Version where
  major : Nat
  minor : Nat
  patch : Nat
deriving DecidableEq, Repr

/-- Decimal value of a digit list (most significant first). -/
def digitsToNat : List Char → Nat → Nat
  | [], acc => acc
  | c :: cs, acc => digitsToNat cs (acc * 10 + (c.toNat - 48))

/-- One numeric component of a semantic version: nonempty, all digits, and no
leading zero (the `semver` crate rejects `01`). -/
def parseVersionNum (s : String) : Option Nat :=
  match s.toList with
  | [] => none
  | c :: cs =>
    if (c :: cs).all Char.isDigit then
      if c = '0' ∧ cs ≠ [] then none else some (digitsToNat (c :: cs) 0)
    else none

/-- Models the `semver` crate's `Version::parse` on the plain
`major.minor.patch` strings this build script feeds it (no pre-release or
build-metadata component is ever present after the hyphen stripping in
`check_bazel`). -/
def Version.parse (s : String) : Option Version :=
  match strSplitChar s '.' with
  | [a, b, c] =>
    match parseVersionNum a, parseVersionNum b, parseVersionNum c with
    | some x, some y, some z => some ⟨x, y, z⟩
    | _, _, _ => none
  | _ => none

/-- `semver` ordering restricted to plain triples: lexicographic on
(major, minor, patch); used for `version < want` in `check_bazel`. -/
def Version.ltb (a b : Version) : Bool :=
  a.major < b.major ||
    (a.major == b.major &&
      (a.minor < b.minor || (a.minor == b.minor && a.patch < b.patch)))

/-- Rust's `str::lines()`: split on `\n`, drop the final empty piece produced
by a trailing newline, and strip one trailing `\r` from each line. -/
def rustLines (s : String) : List String :=
  if s.toList = [] then []
  else
    let parts := strSplitChar s '\n'
    let parts := if strEndsWith s "\n" then parts.dropLast else parts
    parts.map (fun l => if strEndsWith l "\r" then dropLastChar l else l)

/-- The token extraction in `check_bazel` for a line that starts with
`"Build label:"`: `line.split(":").nth(1).unwrap().split(" ").nth(1).unwrap().trim()`.
`none` models the `unwrap` panics. -/
def extractVersionStr (line : String) : Option String := do
  let afterColon ← (strSplitChar line ':')[1]?
  let tok ← (strSplitChar afterColon ' ')[1]?
  pure (strTrim tok)

/-- The trailing-hyphen strip in `check_bazel`:
`if version_str.ends_with('-') { version_str = &version_str[..len-1] }`. -/
def stripTrailingHyphen (s : String) : String :=
  if strEndsWith s "-" then dropLastChar s else s

/-- The `for line in stdout.lines()` loop of `check_bazel`, carrying the
`found_version` flag.  Each matching line is parsed and compared; a parse
failure or a below-minimum version returns `Err` immediately; after the loop,
`found_version == false` is an error. -/
def checkBazelLoop (want : Version) : List String → Bool → Except String Unit
  | [], found =>
    if found then .ok ()
    else .error "Did not find version number in `bazel version` output."
  | line :: rest, found =>
    if strStartsWith line "Build label:" then
      match extractVersionStr line with
      | none => .error "panic: missing token in version line"
      | some tok =>
        let vs := stripTrailingHyphen tok
        match Version.parse vs with
        | none => .error ("could not parse version: " ++ vs)
        | some v =>
          if v.ltb want then
            .error ("Installed version " ++ vs ++
              " is less than required version " ++ MIN_BAZEL)
          else checkBazelLoop want rest true
    else checkBazelLoop want rest found

/-- Function `check_bazel`, applied to the captured stdout of `bazel version` (the
spawning of the process itself is the caller's concern, see
`checkBazelResult`).  The minimum is `Version::parse(MIN_BAZEL)`. -/
def checkBazel (stdout : String) : Except String Unit :=
  match Version.parse MIN_BAZEL with
  | none => .error "panic: MIN_BAZEL does not parse"
  | some want => checkBazelLoop want (rustLines stdout) false

/-- The three outcomes of the strategy selection in `main`. -/
inductive Strategy where
  | alreadyInstalled
  | prebuilt
  | source
deriving DecidableEq, Repr

/-- The force-source flag of `main`:
`match env::var("TF_RUST_BUILD_FROM_SRC") { Ok(s) => s == "true", Err(_) => false }`. -/
def forceSrcOfEnv : Option String → Bool
  | some s => s == "true"
  | none => false

/-- The dispatch in `main`: if either system probe (`check_windows_lib` or
`pkg_config::probe_library`) succeeded, return early; otherwise take the
prebuilt path exactly when `!force_src && ARCH == "x86_64" && OS ∈
{linux, macos, windows}`, else build from source. -/
def mainDispatch (probeFound forceSrc : Bool) (arch os : String) : Strategy :=
  if probeFound then .alreadyInstalled
  else if !forceSrc && arch == "x86_64" &&
      (os == "linux" || os == "macos" || os == "windows") then .prebuilt
  else .source

/-- Process outcome of a pipeline section: normal completion, an explicit
`process::exit(code)`, or a Rust panic (from `run`'s failure branch or an
`unwrap`). -/
inductive Outcome where
  | success
  | exited (code : Nat)
  | panicked
deriving DecidableEq, Repr

/-- The world visible to the download step of `install_prebuilt`: whether the
cache file already exists at `download_dir.join(short_file_name)`, and the
HTTP response code the artifact URL would answer with. -/
structure DownloadWorld where
  cacheFileExists : Bool
  responseCode : Nat
deriving DecidableEq, Repr

/-- Externally visible actions of the download step, in program order:
`File::create(&file_name)` and the curl transfer of the artifact URL. -/
inductive DlAction where
  | createCacheFile
  | fetchArtifact
deriving DecidableEq, Repr

/-- The `// Download the tarball.` section of `install_prebuilt`:
`if !file_name.exists() { create file; curl the URL into it; panic if the
response code is not 200 }`.  The trace lists the actions performed in
order; note that the cache file is created before the transfer starts. -/
def downloadStep (w : DownloadWorld) : List DlAction × Outcome :=
  if w.cacheFileExists then ([], .success)
  else if w.responseCode == 200 then
    ([.createCacheFile, .fetchArtifact], .success)
  else ([.createCacheFile, .fetchArtifact], .panicked)

/-- Whether the cache file exists after one run of the download step. -/
def cacheFileAfter (w : DownloadWorld) : Bool :=
  w.cacheFileExists || (downloadStep w).1.contains DlAction.createCacheFile

/-- The world visible to `build_from_src`: `OUT_DIR`, which artifacts and
marker files exist, what `bazel version` printed (`none` models a failure to
launch the command, the `?` on `command.output()`), and whether each external
process invocation would succeed. -/
structure SrcWorld where
  outDir : String
  libraryExists : Bool
  frameworkLibraryExists : Bool
  bazelVersionOut : Option String
  gitMarkerExists : Bool
  configureMarkerExists : Bool
  gitSucceeds : Bool
  configureSucceeds : Bool
  bazelBuildSucceeds : Bool
deriving DecidableEq, Repr

/-- Externally visible actions of `build_from_src`, in program order. -/
inductive SrcAction where
  | versionCheck
  | clone
  | configure
  | writeConfigureMarker
  | compile
  | copyFramework
  | copyLibrary
  | emitLinkLib (name : String)
  | emitLinkSearch (dir : String)
deriving DecidableEq, Repr

/-- The per-tag library directory: `output.join(format!("lib-{}", TAG))`. -/
def srcLibDir (w : SrcWorld) : String := w.outDir ++ "/lib-" ++ TAG

/-- The three `println!` directives at the end of `build_from_src`
(`cargo:rustc-link-lib=dylib=` twice, then `cargo:rustc-link-search=`). -/
def emitDirectives (dir : String) : List SrcAction :=
  [.emitLinkLib FRAMEWORK_LIBRARY, .emitLinkLib LIBRARY, .emitLinkSearch dir]

/-- The result of the version gate: `check_bazel()` run on the captured
output of `bazel version`, or the propagated launch error. -/
def checkBazelResult (w : SrcWorld) : Except String Unit :=
  match w.bazelVersionOut with
  | none => .error "failed to run bazel version"
  | some out => checkBazel out

/-- Function `build_from_src` as a trace semantics.  Mirrors the source control flow:
if both `libtensorflow.so` and `libtensorflow_framework.so` already exist in
the per-tag `lib_dir`, skip straight to the directives; otherwise run the
version gate (`process::exit(1)` on failure), clone unless the `.git` marker
directory exists, configure unless the `.rust-configured` marker file exists
(creating the marker only after the script succeeds; `run` panics on a
failing subprocess), run the bazel build, copy the two artifacts, and emit
the directives. -/
def buildFromSrc (w : SrcWorld) : List SrcAction × Outcome :=
  let libDir := srcLibDir w
  if w.libraryExists && w.frameworkLibraryExists then
    (emitDirectives libDir, .success)
  else
    match checkBazelResult w with
    | .error _ => ([.versionCheck], .exited 1)
    | .ok _ =>
      let cloneActs : List SrcAction := if w.gitMarkerExists then [] else [.clone]
      if !w.gitMarkerExists && !w.gitSucceeds then
        (SrcAction.versionCheck :: cloneActs, .panicked)
      else
        let confActs : List SrcAction :=
          if w.configureMarkerExists then []
          else if w.configureSucceeds then [.configure, .writeConfigureMarker]
          else [.configure]
        if !w.configureMarkerExists && !w.configureSucceeds then
          (SrcAction.versionCheck :: (cloneActs ++ confActs), .panicked)
        else if !w.bazelBuildSucceeds then
          (SrcAction.versionCheck :: (cloneActs ++ confActs ++ [.compile]), .panicked)
        else
          (SrcAction.versionCheck :: (cloneActs ++ confActs ++
            [.compile, .copyFramework, .copyLibrary] ++ emitDirectives libDir),
            .success)

/-- Replace the configure-marker bit of a world (the single piece of state a
run can durably change that later runs of the Configure step consult). -/
def setConfigMarker (w : SrcWorld) (m : Bool) : SrcWorld :=
  ⟨w.outDir, w.libraryExists, w.frameworkLibraryExists, w.bazelVersionOut,
    w.gitMarkerExists, m, w.gitSucceeds, w.configureSucceeds,
    w.bazelBuildSucceeds⟩

/-- Whether the configure-marker file exists after one run of
`build_from_src` on `w`. -/
def configMarkerAfter (w : SrcWorld) : Bool :=
  w.configureMarkerExists ||
    (buildFromSrc w).1.contains SrcAction.writeConfigureMarker

/-- The configure-marker state after a sequence of runs, threading the marker
through while every other aspect of the world is arbitrary per run. -/
def runAll (m : Bool) : List SrcWorld → Bool
  | [] => m
  | w :: ws => runAll (configMarkerAfter (setConfigMarker w m)) ws

/-- C2: for every remote listing in which no object's key ends with the
expected platform filename suffix, the locator returns no URL (the Rust code
panics with "Unable to find nightly build for system"). -/
theorem locator_no_match_fails
    (contents : List BucketObject) (procType os arch ext : String)
    (h : ∀ o ∈ contents,
      strEndsWith o.key (expectedFilename procType os arch ext) = false) :
    getLatestNightlyUrl contents procType os arch ext = none := by
  have hfil : contents.filter
      (fun o => strEndsWith o.key (expectedFilename procType os arch ext)) = [] := by
    rw [List.filter_eq_nil_iff]
    intro a ha
    simp [h a ha]
  unfold getLatestNightlyUrl
  simp [hfil]

/-- Witness for `locator_no_match_fails` at a concrete one-object listing
whose key does not match the linux/x86_64 cpu tarball name. -/
theorem locator_no_match_fails_witness :
    getLatestNightlyUrl [⟨"libtensorflow-gpu-windows-x86_64.zip", 3⟩]
      "cpu" "linux" "x86_64" ".tar.gz" = none :=
  locator_no_match_fails _ _ _ _ _ (by decide)

/-- C3: with both system probes negative, the prebuilt path is chosen if and
only if the architecture is x86_64, the OS is linux, macos or windows, and
force-source is false; in every other case the source path is chosen. -/
theorem strategy_selector_dispatch (forceSrc : Bool) (arch os : String) :
    (mainDispatch false forceSrc arch os = Strategy.prebuilt ↔
      (arch = "x86_64" ∧ (os = "linux" ∨ os = "macos" ∨ os = "windows") ∧
        forceSrc = false)) ∧
    (mainDispatch false forceSrc arch os = Strategy.prebuilt ∨
      mainDispatch false forceSrc arch os = Strategy.source) := by
  have hd : mainDispatch false forceSrc arch os =
      (if !forceSrc && (arch == "x86_64") &&
          ((os == "linux") || (os == "macos") || (os == "windows"))
        then Strategy.prebuilt else Strategy.source) := rfl
  rw [hd]
  by_cases hc : (!forceSrc && (arch == "x86_64") &&
      ((os == "linux") || (os == "macos") || (os == "windows"))) = true
  · rw [if_pos hc]
    simp only [Bool.and_eq_true, Bool.or_eq_true, Bool.not_eq_true',
      beq_iff_eq] at hc
    constructor
    · constructor
      · intro _
        exact ⟨hc.1.2, by tauto, hc.1.1⟩
      · intro _
        rfl
    · exact Or.inl rfl
  · rw [if_neg hc]
    simp only [Bool.and_eq_true, Bool.or_eq_true, Bool.not_eq_true',
      beq_iff_eq, not_and] at hc
    constructor
    · constructor
      · intro habs
        exact absurd habs (by simp)
      · intro ⟨h1, h2, h3⟩
        exact absurd h2 (by tauto)
    · exact Or.inr rfl

/-- C4 counterexample: the environment value "1" is a conventionally truthy
value for the force-source-build override, yet on x86_64 linux the selector
still dispatches to the prebuilt path, because `main` compares the variable
against the exact string "true". -/
theorem force_src_truthy_counterexample :
    mainDispatch false (forceSrcOfEnv (some "1")) "x86_64" "linux" ≠
      Strategy.source := by decide

/-- C4 (amended): when the force-source-build override is set to exactly the
string "true", the source path is taken regardless of platform. -/
theorem force_src_true_always_source (arch os : String) :
    mainDispatch false (forceSrcOfEnv (some "true")) arch os =
      Strategy.source := rfl

/-- If no line starts with "Build label:", the `check_bazel` loop leaves the
`found_version` flag untouched and reports accordingly at the end. -/
theorem checkBazelLoop_no_label (want : Version) (lines : List String) :
    ∀ found : Bool,
      (∀ l ∈ lines, strStartsWith l "Build label:" = false) →
      checkBazelLoop want lines found =
        (if found then .ok ()
          else .error "Did not find version number in `bazel version` output.") := by
  induction lines with
  | nil =>
    intro found _
    rfl
  | cons l ls ih =>
    intro found h
    have h1 : strStartsWith l "Build label:" = false := h l (by simp)
    have h2 : ∀ x ∈ ls, strStartsWith x "Build label:" = false :=
      fun x hx => h x (by simp [hx])
    rw [checkBazelLoop, h1]
    simpa using ih found h2

/-- C5: the Version Comparator on the three reference outputs (below-minimum
fails, exactly-minimum passes, trailing hyphen is stripped and 1.0.0 passes),
and on any text with no line beginning with "Build label:" it fails with the
version-not-found error. -/
theorem check_bazel_version_cases :
    (checkBazel "Build label: 0.5.3\n").isOk = false ∧
    (checkBazel "Build label: 0.5.4\n").isOk = true ∧
    (stripTrailingHyphen "1.0.0-" = "1.0.0" ∧
      Version.parse "1.0.0" = some ⟨1, 0, 0⟩ ∧
      (checkBazel "Build label: 1.0.0-\n").isOk = true) ∧
    (∀ s : String,
      (∀ l ∈ rustLines s, strStartsWith l "Build label:" = false) →
      checkBazel s =
        .error "Did not find version number in `bazel version` output.") := by
  refine ⟨by decide, by decide, ⟨by decide, by decide, by decide⟩, ?_⟩
  intro s h
  have hdef : checkBazel s = checkBazelLoop ⟨0, 5, 4⟩ (rustLines s) false := rfl
  rw [hdef, checkBazelLoop_no_label ⟨0, 5, 4⟩ (rustLines s) false h]
  rfl

/-- Witness for `check_bazel_version_cases`: its universal part applied to a
concrete output that contains no "Build label:" line. -/
theorem check_bazel_version_cases_witness :
    checkBazel "INFO: Options provided by the client\n" =
      .error "Did not find version number in `bazel version` output." :=
  check_bazel_version_cases.2.2.2 "INFO: Options provided by the client\n" (by decide)

/-- C7: when the cache file already exists at the computed target path, the
download step performs no action at all — in particular no network fetch of
the artifact URL. -/
theorem download_idempotent (w : DownloadWorld)
    (h : w.cacheFileExists = true) :
    (downloadStep w).1 = [] ∧
    DlAction.fetchArtifact ∉ (downloadStep w).1 := by
  simp [downloadStep, h]

/-- Witness for `download_idempotent`: a pre-existing cache file and a server
that would answer 404 — no fetch happens. -/
theorem download_idempotent_witness :
    (downloadStep ⟨true, 404⟩).1 = [] ∧
    DlAction.fetchArtifact ∉ (downloadStep ⟨true, 404⟩).1 :=
  download_idempotent ⟨true, 404⟩ rfl

/-- C10: on a non-200 response with no pre-existing cache file, the cache
file is created before the transfer, the step panics afterwards, the file
remains on disk, and a subsequent invocation of the download step (whatever
the server would then answer) treats it as a cache hit and performs no
action. -/
theorem download_failure_leaves_cache (w : DownloadWorld)
    (h1 : w.cacheFileExists = false) (h2 : w.responseCode ≠ 200) :
    (downloadStep w).1 = [DlAction.createCacheFile, DlAction.fetchArtifact] ∧
    (downloadStep w).2 = Outcome.panicked ∧
    cacheFileAfter w = true ∧
    ∀ code : Nat, (downloadStep ⟨cacheFileAfter w, code⟩).1 = [] := by
  have hb : (w.responseCode == 200) = false := by
    simp [h2]
  refine ⟨?_, ?_, ?_, ?_⟩
  · simp [downloadStep, h1, hb]
  · simp [downloadStep, h1, hb]
  · simp [cacheFileAfter, downloadStep, h1, hb]
  · intro code
    have hc : cacheFileAfter w = true := by
      simp [cacheFileAfter, downloadStep, h1, hb]
    rw [hc]
    rfl

/-- Witness for `download_failure_leaves_cache` at a concrete 404 world. -/
theorem download_failure_leaves_cache_witness :
    (downloadStep ⟨false, 404⟩).1 =
        [DlAction.createCacheFile, DlAction.fetchArtifact] ∧
      (downloadStep ⟨false, 404⟩).2 = Outcome.panicked ∧
      cacheFileAfter ⟨false, 404⟩ = true ∧
      ∀ code : Nat, (downloadStep ⟨cacheFileAfter ⟨false, 404⟩, code⟩).1 = [] :=
  download_failure_leaves_cache ⟨false, 404⟩ rfl (by decide)

/-- C8: when both final shared libraries already exist in the per-tag library
directory, `build_from_src` skips straight to the linker directives: the
trace is exactly the two dynamic-link directives plus the search-path
directive on the per-tag directory, and no version check, clone, configure or
compile is performed. -/
theorem detect_skip_emits_directives (w : SrcWorld)
    (h1 : w.libraryExists = true) (h2 : w.frameworkLibraryExists = true) :
    buildFromSrc w =
      ([SrcAction.emitLinkLib FRAMEWORK_LIBRARY, SrcAction.emitLinkLib LIBRARY,
        SrcAction.emitLinkSearch (srcLibDir w)], Outcome.success) ∧
    SrcAction.versionCheck ∉ (buildFromSrc w).1 ∧
    SrcAction.clone ∉ (buildFromSrc w).1 ∧
    SrcAction.configure ∉ (buildFromSrc w).1 ∧
    SrcAction.compile ∉ (buildFromSrc w).1 := by
  have hb : (w.libraryExists && w.frameworkLibraryExists) = true := by
    rw [h1, h2]
    rfl
  have hdef : buildFromSrc w = (emitDirectives (srcLibDir w), Outcome.success) := by
    unfold buildFromSrc
    rw [hb]
    rfl
  rw [hdef]
  refine ⟨rfl, ?_, ?_, ?_, ?_⟩ <;> simp [emitDirectives]

/-- Witness for `detect_skip_emits_directives` at a concrete world where both
artifacts are present. -/
theorem detect_skip_emits_directives_witness :
    buildFromSrc ⟨"/out", true, true, none, false, false, true, true, true⟩ =
      ([SrcAction.emitLinkLib FRAMEWORK_LIBRARY, SrcAction.emitLinkLib LIBRARY,
        SrcAction.emitLinkSearch
          (srcLibDir ⟨"/out", true, true, none, false, false, true, true, true⟩)],
        Outcome.success) ∧
    SrcAction.versionCheck ∉
      (buildFromSrc ⟨"/out", true, true, none, false, false, true, true, true⟩).1 ∧
    SrcAction.clone ∉
      (buildFromSrc ⟨"/out", true, true, none, false, false, true, true, true⟩).1 ∧
    SrcAction.configure ∉
      (buildFromSrc ⟨"/out", true, true, none, false, false, true, true, true⟩).1 ∧
    SrcAction.compile ∉
      (buildFromSrc ⟨"/out", true, true, none, false, false, true, true, true⟩).1 :=
  detect_skip_emits_directives _ rfl rfl

/-- C6: when the artifacts are absent and the version gate fails (as it does
whenever bazel reports a version below the minimum, e.g. 0.5.0 against
0.5.4), `build_from_src` exits with code 1 having performed only the version
check: no clone, configure, compile or artifact copy ever runs. -/
theorem version_gate_aborts_before_clone (w : SrcWorld) (e : String)
    (hart : (w.libraryExists && w.frameworkLibraryExists) = false)
    (hgate : checkBazelResult w = Except.error e) :
    buildFromSrc w = ([SrcAction.versionCheck], Outcome.exited 1) ∧
    SrcAction.clone ∉ (buildFromSrc w).1 ∧
    SrcAction.configure ∉ (buildFromSrc w).1 ∧
    SrcAction.compile ∉ (buildFromSrc w).1 ∧
    SrcAction.copyFramework ∉ (buildFromSrc w).1 ∧
    SrcAction.copyLibrary ∉ (buildFromSrc w).1 := by
  have hdef : buildFromSrc w = ([SrcAction.versionCheck], Outcome.exited 1) := by
    unfold buildFromSrc
    rw [hart, hgate]
    rfl
  rw [hdef]
  refine ⟨rfl, ?_, ?_, ?_, ?_, ?_⟩ <;> simp

/-- Witness for `version_gate_aborts_before_clone`: bazel reports 0.5.0,
below the 0.5.4 minimum. -/
theorem version_gate_aborts_before_clone_witness :
    buildFromSrc ⟨"/out", false, false, some "Build label: 0.5.0\n",
        false, false, true, true, true⟩ =
      ([SrcAction.versionCheck], Outcome.exited 1) ∧
    SrcAction.clone ∉ (buildFromSrc ⟨"/out", false, false,
      some "Build label: 0.5.0\n", false, false, true, true, true⟩).1 ∧
    SrcAction.configure ∉ (buildFromSrc ⟨"/out", false, false,
      some "Build label: 0.5.0\n", false, false, true, true, true⟩).1 ∧
    SrcAction.compile ∉ (buildFromSrc ⟨"/out", false, false,
      some "Build label: 0.5.0\n", false, false, true, true, true⟩).1 ∧
    SrcAction.copyFramework ∉ (buildFromSrc ⟨"/out", false, false,
      some "Build label: 0.5.0\n", false, false, true, true, true⟩).1 ∧
    SrcAction.copyLibrary ∉ (buildFromSrc ⟨"/out", false, false,
      some "Build label: 0.5.0\n", false, false, true, true, true⟩).1 :=
  version_gate_aborts_before_clone _
    "Installed version 0.5.0 is less than required version 0.5.4" rfl rfl

set_option maxHeartbeats 1000000 in
/-- In any single run of `build_from_src`, the configure marker is written
only if the configuration script was invoked in that run and succeeded. -/
theorem writeMarker_requires_configure_success (w : SrcWorld)
    (hmem : SrcAction.writeConfigureMarker ∈ (buildFromSrc w).1) :
    SrcAction.configure ∈ (buildFromSrc w).1 ∧ w.configureSucceeds = true := by
  obtain ⟨od, lib, fw, bvo, gm, cm, gs, cs, bs⟩ := w
  rcases hE : checkBazelResult ⟨od, lib, fw, bvo, gm, cm, gs, cs, bs⟩ with e | u <;>
    cases lib <;> cases fw <;> cases gm <;> cases cm <;> cases gs <;> cases cs <;>
    cases bs <;>
    simp_all [buildFromSrc, emitDirectives]

set_option maxHeartbeats 1000000 in
/-- In any single run of `build_from_src` with the configure marker already
present, the configuration script is not invoked. -/
theorem marker_present_no_configure (w : SrcWorld)
    (hm : w.configureMarkerExists = true) :
    SrcAction.configure ∉ (buildFromSrc w).1 := by
  obtain ⟨od, lib, fw, bvo, gm, cm, gs, cs, bs⟩ := w
  change cm = true at hm
  subst hm
  rcases hE : checkBazelResult ⟨od, lib, fw, bvo, gm, true, gs, cs, bs⟩ with e | u <;>
    cases lib <;> cases fw <;> cases gm <;> cases gs <;> cases cs <;> cases bs <;>
    simp_all [buildFromSrc, emitDirectives]

/-- C9: (i) in any run, the configure marker is written only when the
configuration script was actually invoked and succeeded; (ii) in any run
where the marker already exists, the configuration script is not re-invoked;
(iii) hence across any sequence of runs starting with no marker, the marker
being present at the end implies some prior run invoked the configuration
script successfully. -/
theorem configure_marker_invariant :
    (∀ w : SrcWorld, SrcAction.writeConfigureMarker ∈ (buildFromSrc w).1 →
      SrcAction.configure ∈ (buildFromSrc w).1 ∧ w.configureSucceeds = true) ∧
    (∀ w : SrcWorld, w.configureMarkerExists = true →
      SrcAction.configure ∉ (buildFromSrc w).1) ∧
    (∀ ws : List SrcWorld, runAll false ws = true →
      ∃ w ∈ ws,
        SrcAction.configure ∈ (buildFromSrc (setConfigMarker w false)).1 ∧
        w.configureSucceeds = true) := by
  refine ⟨writeMarker_requires_configure_success, marker_present_no_configure, ?_⟩
  have key : ∀ (ws : List SrcWorld) (m : Bool), runAll m ws = true →
      m = true ∨ ∃ w ∈ ws,
        SrcAction.writeConfigureMarker ∈ (buildFromSrc (setConfigMarker w false)).1 := by
    intro ws
    induction ws with
    | nil =>
      intro m h
      exact Or.inl h
    | cons w ws ih =>
      intro m h
      cases m with
      | true => exact Or.inl rfl
      | false =>
        rw [runAll] at h
        rcases ih _ h with hm | ⟨w2, hw2, hmem⟩
        · right
          refine ⟨w, List.mem_cons_self w ws, ?_⟩
          unfold configMarkerAfter at hm
          simp only [setConfigMarker, Bool.false_or] at hm
          exact List.elem_iff.mp hm
        · exact Or.inr ⟨w2, List.mem_cons_of_mem _ hw2, hmem⟩
  intro ws hws
  rcases key ws false hws with hfalse | ⟨w, hw, hmem⟩
  · exact absurd hfalse (by simp)
  · obtain ⟨hconf, hcs⟩ := writeMarker_requires_configure_success (setConfigMarker w false) hmem
    exact ⟨w, hw, hconf, hcs⟩

/-- Witness for `configure_marker_invariant`: a single run with artifacts
absent, a passing version gate, the clone marker present and no configure
marker ends with the marker set, and the theorem recovers that this run
configured successfully. -/
theorem configure_marker_invariant_witness :
    ∃ w ∈ [(⟨"/o", false, false, some "Build label: 0.5.4\n",
        true, false, true, true, true⟩ : SrcWorld)],
      SrcAction.configure ∈ (buildFromSrc (setConfigMarker w false)).1 ∧
      w.configureSucceeds = true :=
  configure_marker_invariant.2.2
    [⟨"/o", false, false, some "Build label: 0.5.4\n", true, false, true, true, true⟩]
    (by decide)

/-- The last element of a list that is pairwise-ordered by `R` bounds every
element of the list from above (up to equality). -/
theorem pairwise_getLast_max {α : Type} {R : α → α → Prop} :
    ∀ l : List α, l.Pairwise R → ∀ y, l.getLast? = some y →
      ∀ x ∈ l, x = y ∨ R x y := by
  intro l
  induction l with
  | nil =>
    intro _ y hy
    simp at hy
  | cons a t ih =>
    intro hp y hy x hx
    cases t with
    | nil =>
      have h1 : a = y := by simpa using hy
      have h2 : x = a := by simpa using hx
      exact Or.inl (h2.trans h1)
    | cons b t2 =>
      rw [List.getLast?_cons_cons] at hy
      rcases List.mem_cons.mp hx with rfl | hx2
      · have hymem : y ∈ b :: t2 :=
          List.mem_of_mem_getLast? (Option.mem_def.mpr hy)
        exact Or.inr ((List.pairwise_cons.mp hp).1 y hymem)
      · exact ih (List.pairwise_cons.mp hp).2 y hy x hx2

/-- C1: for a listing with pairwise-distinct generations, the locator returns
the base URL, a slash, and the key of the matching object with the maximum
generation. -/
theorem locator_selects_max_generation
    (contents : List BucketObject) (procType os arch ext : String)
    (obj : BucketObject)
    (hdist : contents.Pairwise (fun a b => a.generation ≠ b.generation))
    (hmem : obj ∈ contents)
    (hmatch : strEndsWith obj.key (expectedFilename procType os arch ext) = true)
    (hmax : ∀ o ∈ contents,
      strEndsWith o.key (expectedFilename procType os arch ext) = true →
      o.generation ≤ obj.generation) :
    getLatestNightlyUrl contents procType os arch ext =
      some (baseUrl ++ "/" ++ obj.key) := by
  have hdef : getLatestNightlyUrl contents procType os arch ext =
      ((contents.filter
          (fun o => strEndsWith o.key (expectedFilename procType os arch ext))).mergeSort
            (fun a b => a.generation ≤ b.generation)).getLast?.map
        (fun o => baseUrl ++ "/" ++ o.key) := rfl
  rw [hdef]
  set fn := expectedFilename procType os arch ext with hfn
  set objs := contents.filter (fun o => strEndsWith o.key fn) with hobjs
  set le : BucketObject → BucketObject → Bool :=
    fun a b => a.generation ≤ b.generation with hle
  have hmemf : obj ∈ objs := by
    rw [hobjs]
    exact List.mem_filter.mpr ⟨hmem, hmatch⟩
  have hperm := List.mergeSort_perm objs le
  have hmemS : obj ∈ objs.mergeSort le := hperm.mem_iff.mpr hmemf
  have htrans : ∀ a b c : BucketObject, le a b → le b c → le a c := by
    intro a b c hab hbc
    simp only [hle, decide_eq_true_eq] at hab hbc ⊢
    omega
  have htotal : ∀ a b : BucketObject, le a b || le b a := by
    intro a b
    simp only [hle, Bool.or_eq_true, decide_eq_true_eq]
    omega
  have hsorted := List.sorted_mergeSort htrans htotal objs
  have hne : objs.mergeSort le ≠ [] := List.ne_nil_of_mem hmemS
  have hy := List.getLast?_eq_getLast (objs.mergeSort le) hne
  set y := (objs.mergeSort le).getLast hne with hydef
  have hup := pairwise_getLast_max (objs.mergeSort le) hsorted y hy
  have hymem : y ∈ objs.mergeSort le :=
    List.mem_of_mem_getLast? (Option.mem_def.mpr hy)
  have hyobjs : y ∈ objs := hperm.mem_iff.mp hymem
  have hyc := List.mem_filter.mp (hobjs ▸ hyobjs)
  have hge : obj.generation ≤ y.generation := by
    rcases hup obj hmemS with h | h
    · rw [h]
    · simpa only [hle, decide_eq_true_eq] using h
  have hley : y.generation ≤ obj.generation := hmax y hyc.1 hyc.2
  have hgeq : y.generation = obj.generation := Nat.le_antisymm hley hge
  have hyeq : y = obj := by
    by_contra hneq
    exact (List.Pairwise.forall (fun a b hab => Ne.symm hab) hdist hyc.1 hmem hneq)
      hgeq
  rw [hy, hyeq]
  rfl

/-- Witness for `locator_selects_max_generation`: among two matching keys
with generations 5 and 7 (and a non-matching key with generation 9), the
generation-7 key is returned. -/
theorem locator_selects_max_generation_witness :
    getLatestNightlyUrl
      [⟨"k1/libtensorflow-cpu-linux-x86_64.tar.gz", 5⟩,
        ⟨"other/file.zip", 9⟩,
        ⟨"k2/libtensorflow-cpu-linux-x86_64.tar.gz", 7⟩]
      "cpu" "linux" "x86_64" ".tar.gz" =
      some (baseUrl ++ "/" ++ "k2/libtensorflow-cpu-linux-x86_64.tar.gz") :=
  locator_selects_max_generation _ _ _ _ _
    ⟨"k2/libtensorflow-cpu-linux-x86_64.tar.gz", 7⟩
    (by decide) (by decide) (by decide) (by decide)
